import Mathlib

/-!
Shallow embedding of `custom_components/localtuya/switch.py`: the
`TuyaCache` wrapper around a pytuya device handle (status caching with a
15-second staleness test, retry loops for reads and writes, a lock held
by `status()`), and the `TuyaDevice` switch entity which projects an
on/off value and measurement attributes out of the cached status blob.

Modelling conventions, mirrored from the source:
* A device handle's fetch behaviour is an oracle `handle : Nat → Option
  DeviceStatus`: `handle i` is the outcome of the (i+1)-st fetch attempt
  inside one retry loop (`none` means that attempt raised an exception).
  Write behaviour is `wh : Nat → Bool` (`true` means the attempt
  succeeded).  The handle itself (pytuya's `OutletDevice`) is outside the
  embedded file; per the design document its fetch returns a decoded
  status dict and its write returns a contentless ok.
* A fetched status dict always has the single top-level key `"dps"`
  (the entity adapter reads `status["dps"]`), hence it is truthy in
  Python; the cache slot `_cached_status` therefore holds either the
  falsy initial sentinel `""` (rendered `none`) or a dict (`some`).
* Readings of `time()` are passed in as rational parameters: `now` for
  the reading at the top of `status()` and `tDone` for the reading taken
  after a live refresh.
-/

/-- A value stored under a data-point key: a boolean or an integer. -/
inductive DPValue where
  | b (x : Bool)
  | n (x : Int)
deriving DecidableEq, Repr

/-- Outcome of a Python call: a returned value, or a raised exception. -/
inductive PyRet (α : Type) where
  | val (a : α)
  | exn
deriving DecidableEq, Repr

/-- A decoded status dict as returned by the device handle's fetch: a
dict whose single top-level key `"dps"` maps data-point keys (strings)
to values.  `TuyaDevice.update` reads `status["dps"]`. -/
structure DeviceStatus where
  dps : List (String × DPValue)
deriving DecidableEq, Repr

/-- Result of one run of the retry loop in `TuyaCache.__get_status`,
with the number of fetch attempts that were made.  `implicitNone` is the
Python fall-through return (the `for` range exhausted without a
`return` or `raise`); it is proved unreachable below. -/
inductive GetStatusResult where
  | success (s : DeviceStatus) (calls : Nat)
  | connFailure (calls : Nat)
  | implicitNone (calls : Nat)
deriving DecidableEq, Repr

/-- Number of fetch attempts recorded in a `GetStatusResult`. -/
def GetStatusResult.calls : GetStatusResult → Nat
  | .success _ k => k
  | .connFailure k => k
  | .implicitNone k => k

/-- The body of `TuyaCache.__get_status`:
`for i in range(5):` try `self._device.status()` and return it; on an
exception print, `sleep(1.0)`, and if `i + 1 == 3` log at error severity
and `raise ConnectionError`.  Arguments: current loop index `i`,
remaining iterations `fuel`, attempts made so far `calls`. -/
def getStatusIter (handle : Nat → Option DeviceStatus) :
    Nat → Nat → Nat → GetStatusResult
  | _, 0, calls => .implicitNone calls
  | i, fuel + 1, calls =>
    match handle i with
    | some s => .success s (calls + 1)
    | none =>
      if i + 1 = 3 then .connFailure (calls + 1)
      else getStatusIter handle (i + 1) fuel (calls + 1)

/-- The state of a `TuyaCache`: the `_cached_status` slot (`none` is
the falsy sentinel `""`) and `_cached_status_time` (`0` until first
set). The device handle and the lock are modelled separately. -/
structure TuyaCache where
  cached_status : Option DeviceStatus
  cached_status_time : ℚ
deriving DecidableEq, Repr

/-- `TuyaCache.__init__`: empty cached status, time 0. -/
def TuyaCache.init : TuyaCache := ⟨none, 0⟩

/-- `TuyaCache.__get_status`: the retry loop entered at `i = 0` with 5
iterations available. -/
def TuyaCache.get_status (handle : Nat → Option DeviceStatus) : GetStatusResult :=
  getStatusIter handle 0 5 0

/-- Observable outcome of one `TuyaCache.status()` call: the cache state
afterwards, the returned value (or raised exception), and how many fetch
attempts reached the device handle. -/
structure StatusOutcome where
  cache : TuyaCache
  result : PyRet (Option DeviceStatus)
  handleCalls : Nat
deriving DecidableEq, Repr

/-- `TuyaCache.status()`: under the lock, read `now = time()`; if
`not self._cached_status or now - self._cached_status_time > 15`,
`sleep(0.5)` and run `__get_status`, storing the result and a fresh
`time()` reading (`tDone`); return the cached status.  A
`ConnectionError` escaping `__get_status` propagates (the `finally`
only releases the lock), leaving both cache fields unassigned. -/
def TuyaCache.status (c : TuyaCache) (handle : Nat → Option DeviceStatus)
    (now tDone : ℚ) : StatusOutcome :=
  if c.cached_status.isNone ∨ now - c.cached_status_time > 15 then
    match TuyaCache.get_status handle with
    | .success s k => ⟨⟨some s, tDone⟩, .val (some s), k⟩
    | .connFailure k => ⟨c, .exn, k⟩
    | .implicitNone k => ⟨⟨none, tDone⟩, .val none, k⟩
  else
    ⟨c, .val c.cached_status, 0⟩

/-- Observable outcome of one `TuyaCache.set_status()` call: the cache
state afterwards, the returned value (the device's contentless ok and
the abandonment path both return Python `None`, rendered `val none`),
the number of write attempts, and whether any write attempt reached the
device successfully. -/
structure SetStatusOutcome where
  cache : TuyaCache
  result : PyRet (Option Unit)
  handleCalls : Nat
  wroteDevice : Bool
deriving DecidableEq, Repr

/-- The retry loop of `TuyaCache.set_status`: `for i in range(5):` try
`return self._device.set_status(state, switchid)`; on an exception
print, and if `i + 1 == 3` log at error severity and `return` (the
`raise ConnectionError` in the source is commented out).  Returns the
returned value, attempts made, and whether a write succeeded. -/
def setStatusIter (wh : Nat → Bool) :
    Nat → Nat → Nat → PyRet (Option Unit) × Nat × Bool
  | _, 0, calls => (.val none, calls, false)
  | i, fuel + 1, calls =>
    if wh i then (.val none, calls + 1, true)
    else if i + 1 = 3 then (.val none, calls + 1, false)
    else setStatusIter wh (i + 1) fuel (calls + 1)

/-- `TuyaCache.set_status(state, switchid)`: set `_cached_status = ""`
and `_cached_status_time = 0`, then run the write retry loop.  No lock
is acquired anywhere in this method. -/
def TuyaCache.set_status (c : TuyaCache) (state : Bool) (switchid : String)
    (wh : Nat → Bool) : SetStatusOutcome :=
  let cleared : TuyaCache := { c with cached_status := none, cached_status_time := 0 }
  let r := setStatusIter wh 0 5 0
  ⟨cleared, r.1, r.2.1, r.2.2⟩

/-- A sequence of `status()` calls against one cache, each call given
its pair of `time()` readings `(now, tDone)`; returns the final cache
state and the outcomes in order. -/
def statusSeq (handle : Nat → Option DeviceStatus) :
    TuyaCache → List (ℚ × ℚ) → TuyaCache × List StatusOutcome
  | c, [] => (c, [])
  | c, t :: ts =>
    let o := TuyaCache.status c handle t.1 t.2
    let r := statusSeq handle o.cache ts
    (r.1, o :: r.2)

/-! ### Event traces and lock discipline

To reason about the mutual-exclusion behaviour, each `TuyaCache` method
is compiled to the sequence of externally visible atomic events it
performs: lock acquisition and release of the cache's single `_lock`,
the start and end of each device-handle operation, and each mutation of
the cache entry. -/

/-- An atomic event performed by a `TuyaCache` method. -/
inductive Ev where
  | acquire
  | release
  | fetchStart
  | fetchEnd
  | writeStart
  | writeEnd
  | cacheWrite
deriving DecidableEq, Repr

/-- Device-handle events of the `__get_status` retry loop (same control
flow as `getStatusIter`): each attempt starts and ends a fetch call; the
loop stops on a success or on the third failure. -/
def getStatusEvents (handle : Nat → Option DeviceStatus) :
    Nat → Nat → List Ev
  | _, 0 => []
  | i, fuel + 1 =>
    match handle i with
    | some _ => [.fetchStart, .fetchEnd]
    | none =>
      .fetchStart :: .fetchEnd ::
        (if i + 1 = 3 then [] else getStatusEvents handle (i + 1) fuel)

/-- Events performed between acquiring and releasing the lock in
`status()`: nothing when the memoized value is served; otherwise the
fetch attempts, followed by a cache mutation whenever `__get_status`
returned (normally) rather than raised. -/
def statusBodyEvents (c : TuyaCache) (handle : Nat → Option DeviceStatus)
    (now : ℚ) : List Ev :=
  if c.cached_status.isNone ∨ now - c.cached_status_time > 15 then
    getStatusEvents handle 0 5 ++
      (match TuyaCache.get_status handle with
       | .success _ _ => [.cacheWrite]
       | .connFailure _ => []
       | .implicitNone _ => [.cacheWrite])
  else []

/-- Event trace of one `status()` call: `self._lock.acquire()`, the
body, and the `finally:`-guaranteed `self._lock.release()`. -/
def statusEvents (c : TuyaCache) (handle : Nat → Option DeviceStatus)
    (now : ℚ) : List Ev :=
  .acquire :: (statusBodyEvents c handle now ++ [.release])

/-- Device-handle events of the write retry loop in `set_status`. -/
def setStatusWriteEvents (wh : Nat → Bool) : Nat → Nat → List Ev
  | _, 0 => []
  | i, fuel + 1 =>
    if wh i then [.writeStart, .writeEnd]
    else
      .writeStart :: .writeEnd ::
        (if i + 1 = 3 then [] else setStatusWriteEvents wh (i + 1) fuel)

/-- Event trace of one `set_status()` call: the cache entry is cleared
first, then the write attempts run.  The method never touches
`self._lock`, so the trace contains no `acquire`/`release`. -/
def setStatusEvents (wh : Nat → Bool) : List Ev :=
  .cacheWrite :: setStatusWriteEvents wh 0 5

/-- `opsLocked evs d = true` iff, starting from lock depth `d`, every
device operation and cache mutation in `evs` happens while the lock is
held (depth above zero). -/
def opsLocked : List Ev → Nat → Bool
  | [], _ => true
  | Ev.acquire :: r, d => opsLocked r (d + 1)
  | Ev.release :: r, 0 => opsLocked r 0
  | Ev.release :: r, d + 1 => opsLocked r d
  | _ :: _, 0 => false
  | _ :: r, d + 1 => opsLocked r (d + 1)

/-- `true` iff a trace contains no lock events. -/
def noLockEvs (l : List Ev) : Bool :=
  l.all fun e => !(e == Ev.acquire) && !(e == Ev.release)

/-- A schedule interleaves the events of two threads (`false`/`true`).
`lockValid s st` holds iff the schedule respects the lock: `acquire`
succeeds only when the lock is free (`st = none`), `release` is done
only by the current holder. -/
def lockValid : List (Bool × Ev) → Option Bool → Bool
  | [], _ => true
  | (t, Ev.acquire) :: rest, none => lockValid rest (some t)
  | (_, Ev.acquire) :: _, some _ => false
  | (t, Ev.release) :: rest, some t' =>
    if t = t' then lockValid rest none else false
  | (_, Ev.release) :: _, none => false
  | (_, _) :: rest, st => lockValid rest st

/-- The events of thread `t` in a schedule, in order. -/
def proj (t : Bool) (s : List (Bool × Ev)) : List Ev :=
  s.filterMap (fun p => if p.1 = t then some p.2 else none)

/-- `true` iff somewhere in the schedule one thread starts a device
write while another thread's device fetch is in flight (started, not
yet ended). -/
def fetchWriteOverlap (s : List (Bool × Ev)) : Bool :=
  (List.range s.length).any fun i =>
    (List.range s.length).any fun j =>
      (List.range s.length).any fun k =>
        decide (i < j) && decide (j < k) &&
        (match s.get? i, s.get? j, s.get? k with
         | some (a, Ev.fetchStart), some (b, Ev.writeStart),
             some (a', Ev.fetchEnd) => decide (a = a') && decide (a ≠ b)
         | _, _, _ => false)

/-! ### The entity adapter `TuyaDevice` -/

/-- State of one `TuyaDevice` entity: availability flag, the configured
switch id and optional attribute keys, the stored status dict
(`_status`, `None` initially) and the stored switch value (`_state`,
`None` initially). -/
structure TuyaDevice where
  available : Bool
  switch_id : String
  attr_current : Option String
  attr_consumption : Option String
  attr_voltage : Option String
  status : Option DeviceStatus
  state : Option DPValue
deriving DecidableEq, Repr

/-- `TuyaDevice.__init__`: not available, no status, no state. -/
def TuyaDevice.init (switchid : String)
    (cur cons volt : Option String) : TuyaDevice :=
  ⟨false, switchid, cur, cons, volt, none, none⟩

/-- Python truthiness of an optional configured attribute key:
`None` and the empty string are falsy, any other string is truthy. -/
def truthyStr : Option String → Bool
  | none => false
  | some s => !s.isEmpty

/-- `st["dps"][k]` as performed by the adapter on its stored `_status`:
raises (`TypeError`) if `_status` is `None`, raises (`KeyError`) if the
key is absent from the dps mapping. -/
def getDp (st : Option DeviceStatus) (k : String) : PyRet DPValue :=
  match st with
  | none => .exn
  | some s =>
    match s.dps.lookup k with
    | some v => .val v
    | none => .exn

/-- A data-point value as a number, as Python true division sees it
(`True` is 1, `False` is 0). -/
def dpToRat : DPValue → ℚ
  | .b true => 1
  | .b false => 0
  | .n x => (x : ℚ)

/-- A value in the adapter's attribute dict: either a data-point value
passed through unscaled, or the (exact rational) result of a Python
true division. -/
inductive AttrVal where
  | raw (v : DPValue)
  | num (q : ℚ)
deriving DecidableEq, Repr

/-- `TuyaDevice.device_state_attributes`: build `attrs` from scratch;
for each truthy configured key read `self._status["dps"][key]`, storing
the current reading unscaled and the consumption and voltage readings
divided by 10.  Any missing key (or absent status) raises out of the
property.  Attribute names follow the spec's attribute map
(current, consumption, voltage); the `ATTR_*` constants live in the
platform's `const` module, outside the embedded file. -/
def TuyaDevice.device_state_attributes (d : TuyaDevice) :
    PyRet (List (String × AttrVal)) :=
  match
    (if truthyStr d.attr_current then
      match getDp d.status (d.attr_current.getD "") with
      | .exn => PyRet.exn
      | .val v => .val [("current", AttrVal.raw v)]
     else .val []) with
  | .exn => .exn
  | .val a1 =>
    match
      (if truthyStr d.attr_consumption then
        match getDp d.status (d.attr_consumption.getD "") with
        | .exn => PyRet.exn
        | .val v => .val (a1 ++ [("consumption", AttrVal.num (dpToRat v / 10))])
       else .val a1) with
    | .exn => .exn
    | .val a2 =>
      if truthyStr d.attr_voltage then
        match getDp d.status (d.attr_voltage.getD "") with
        | .exn => PyRet.exn
        | .val v => .val (a2 ++ [("voltage", AttrVal.num (dpToRat v / 10))])
      else .val a2

/-- `TuyaDevice.is_on`: returns `self._state`. -/
def TuyaDevice.is_on (d : TuyaDevice) : Option DPValue := d.state

/-- `TuyaDevice.update`, fed the outcome of `self._device.status()`:
on an exception from `status()` only `_available` is set to `False`;
on a normal return, `_status` is assigned first, then
`_state = self._status["dps"][self._switch_id]` — if that subscript
raises (status `None`, or the switch id absent from dps), the handler
still runs with `_status` already overwritten and `_state` untouched;
otherwise `_available` becomes `True`. -/
def TuyaDevice.update (d : TuyaDevice) (r : PyRet (Option DeviceStatus)) :
    TuyaDevice :=
  match r with
  | .exn => { d with available := false }
  | .val none => { d with status := none, available := false }
  | .val (some s) =>
    match s.dps.lookup d.switch_id with
    | some v => { d with status := some s, state := some v, available := true }
    | none => { d with status := some s, available := false }

/-! ### Concrete fixtures used in the theorems -/

/-- A sample decoded status dict. -/
def blob0 : DeviceStatus := ⟨[("1", .b true)]⟩

/-- A handle whose fetch succeeds on every attempt with `blob0`. -/
def hOk : Nat → Option DeviceStatus := fun _ => some blob0

/-- A handle whose fetch fails on every attempt. -/
def hFail : Nat → Option DeviceStatus := fun _ => none

/-- A handle that fails its first fetch attempt, then succeeds. -/
def hFail1 : Nat → Option DeviceStatus :=
  fun i => if i = 0 then none else some blob0

/-- A handle that fails its first three fetch attempts, then succeeds. -/
def hFail3 : Nat → Option DeviceStatus :=
  fun i => if i < 3 then none else some blob0

/-- A write handle whose attempts all succeed. -/
def whOk : Nat → Bool := fun _ => true

/-- A write handle whose attempts all fail. -/
def whFail : Nat → Bool := fun _ => false

/-- A write handle that fails its first three attempts, then succeeds. -/
def whFail3 : Nat → Bool := fun i => decide (3 ≤ i)

/-- A schedule interleaving one `status()` call (thread `false`, against
the fresh cache with handle `hOk`) and one `set_status()` call (thread
`true`, with handle `whOk`): the write runs while the fetch is in
flight. -/
def sched2 : List (Bool × Ev) :=
  [(false, .acquire), (false, .fetchStart), (true, .cacheWrite),
   (true, .writeStart), (false, .fetchEnd), (true, .writeEnd),
   (false, .cacheWrite), (false, .release)]

/-- The status blob of the specification's adapter-projection example:
switch "1" on, current 120, consumption reading 305, voltage reading
2300. -/
def blob6 : DeviceStatus :=
  ⟨[("1", .b true), ("18", .n 120), ("19", .n 305), ("20", .n 2300)]⟩

/-- The adapter of the specification's adapter-projection example:
switch index "1", current key "18", consumption key "19", voltage key
"20". -/
def dev6 : TuyaDevice :=
  TuyaDevice.init "1" (some "18") (some "19") (some "20")

/-- An adapter with a stored blob that lacks its configured voltage key
"20" (the blob only carries the current key "18"). -/
def dev8 : TuyaDevice :=
  ⟨true, "1", some "18", none, some "20",
   some ⟨[("1", .b true), ("18", .n 5)]⟩, some (.b true)⟩

/-- The CacheEntry invariant of the specification's data model:
the timestamp is unset (0) exactly when the cached blob is empty. -/
def cacheInv (c : TuyaCache) : Prop :=
  c.cached_status = none ↔ c.cached_status_time = 0

/-! ### Helper lemmas -/

/-- Every run of the fetch retry loop with at least one iteration left
performs at least one more fetch attempt. -/
theorem getStatusIter_calls_lt (handle : Nat → Option DeviceStatus) :
    ∀ fuel i calls, calls < (getStatusIter handle i (fuel + 1) calls).calls := by
  intro fuel
  induction fuel with
  | zero =>
    intro i calls
    simp only [getStatusIter]
    cases hh : handle i with
    | some s => simp [GetStatusResult.calls]
    | none =>
      by_cases h : i + 1 = 3 <;>
        simp [h, getStatusIter, GetStatusResult.calls]
  | succ fuel ih =>
    intro i calls
    have h1 := ih (i + 1) (calls + 1)
    simp only [getStatusIter] at h1 ⊢
    cases hh : handle i with
    | some s => simp [GetStatusResult.calls]
    | none =>
      by_cases h : i + 1 = 3
      · simp [h, GetStatusResult.calls]
      · simp only [h, if_false]
        omega

/-- `__get_status` always attempts at least one fetch. -/
theorem get_status_calls_pos (handle : Nat → Option DeviceStatus) :
    0 < (TuyaCache.get_status handle).calls :=
  getStatusIter_calls_lt handle 4 0 0

/-- The fall-through return of the `__get_status` loop is unreachable:
the loop stops with a success or with the `ConnectionError` raised on
the third failure. -/
theorem get_status_ne_implicitNone (handle : Nat → Option DeviceStatus) :
    ∀ k, TuyaCache.get_status handle ≠ GetStatusResult.implicitNone k := by
  intro k
  unfold TuyaCache.get_status
  cases h0 : handle 0 <;> cases h1 : handle 1 <;> cases h2 : handle 2 <;>
    simp [getStatusIter, h0, h1, h2]

theorem noLock_getStatusEvents (handle : Nat → Option DeviceStatus) :
    ∀ fuel i, noLockEvs (getStatusEvents handle i fuel) = true := by
  intro fuel
  induction fuel with
  | zero => intro i; simp [getStatusEvents, noLockEvs]
  | succ fuel ih =>
    intro i
    simp only [getStatusEvents]
    cases hh : handle i with
    | some s => simp [noLockEvs]
    | none =>
      by_cases h : i + 1 = 3
      · simp [h, noLockEvs]
      · simp only [h, if_false]
        have := ih (i + 1)
        simp [noLockEvs] at this ⊢
        exact this

/-- Any lock-event-free trace keeps every operation at depth one until
the final `release`. -/
theorem opsLocked_of_noLock :
    ∀ l : List Ev, noLockEvs l = true →
      opsLocked (l ++ [Ev.release]) 1 = true := by
  intro l
  induction l with
  | nil => intro _; simp [opsLocked]
  | cons e r ih =>
    intro h
    simp [noLockEvs] at h
    obtain ⟨⟨ha, hr⟩, hrest⟩ := h
    have hrest' : noLockEvs r = true := by simp [noLockEvs]; exact hrest
    cases e <;> simp_all [opsLocked]

/-- Serving the memoized value: a non-empty cache entry within the
staleness threshold is returned unchanged with no device call. -/
theorem status_memo (c : TuyaCache) (handle : Nat → Option DeviceStatus)
    (now tDone : ℚ) (b : DeviceStatus) (hb : c.cached_status = some b)
    (ht : now - c.cached_status_time ≤ 15) :
    TuyaCache.status c handle now tDone = ⟨c, .val (some b), 0⟩ := by
  have ht' : ¬(now - c.cached_status_time > 15) := not_lt.2 ht
  simp [TuyaCache.status, hb, ht']

/-- A whole sequence of calls within the staleness threshold of one
memoized entry is served from the cache: no device calls, identical
blob, cache unchanged. -/
theorem statusSeq_memo (handle : Nat → Option DeviceStatus)
    (b : DeviceStatus) (t1 : ℚ) :
    ∀ ts : List (ℚ × ℚ), (∀ p ∈ ts, p.1 - t1 ≤ 15) →
      statusSeq handle ⟨some b, t1⟩ ts =
        (⟨some b, t1⟩, ts.map fun _ => ⟨⟨some b, t1⟩, .val (some b), 0⟩) := by
  intro ts
  induction ts with
  | nil => intro _; simp [statusSeq]
  | cons t ts ih =>
    intro h
    have h1 : t.1 - t1 ≤ 15 := h t (by simp)
    have h2 : ∀ p ∈ ts, p.1 - t1 ≤ 15 := fun p hp => h p (by simp [hp])
    simp only [statusSeq]
    rw [status_memo ⟨some b, t1⟩ handle t.1 t.2 b rfl h1]
    simp [ih h2]

/-- The write retry loop never raises: every exit path returns `None`
(the `raise` in the source is commented out). -/
theorem setStatusIter_val_none (wh : Nat → Bool) :
    ∀ fuel i calls, (setStatusIter wh i fuel calls).1 = .val none := by
  intro fuel
  induction fuel with
  | zero => intro i calls; simp [setStatusIter]
  | succ fuel ih =>
    intro i calls
    simp only [setStatusIter]
    by_cases hw : wh i
    · simp [hw]
    · by_cases h3 : i + 1 = 3
      · simp [hw, h3]
      · simp [hw, h3, ih]

/-- The write retry loop gives up at the third consecutive failure:
never more than three attempts. -/
theorem set_status_calls_le_three (c : TuyaCache) (state : Bool)
    (switchid : String) (wh : Nat → Bool) :
    (TuyaCache.set_status c state switchid wh).handleCalls ≤ 3 := by
  cases hw0 : wh 0 <;> cases hw1 : wh 1 <;> cases hw2 : wh 2 <;>
    simp [TuyaCache.set_status, setStatusIter, hw0, hw1, hw2]

/-- A handle that fails its first k fetch attempts (k < 3) and succeeds
on attempt k+1 drives `__get_status` to a success after exactly k+1
attempts. -/
theorem get_status_fail_then_ok (handle : Nat → Option DeviceStatus)
    (b : DeviceStatus) (k : Nat) (hk : k < 3)
    (hfail : ∀ i, i < k → handle i = none) (hs : handle k = some b) :
    TuyaCache.get_status handle = .success b (k + 1) := by
  interval_cases k
  · simp [TuyaCache.get_status, getStatusIter, hs]
  · have h0 := hfail 0 (by omega)
    simp [TuyaCache.get_status, getStatusIter, h0, hs]
  · have h0 := hfail 0 (by omega)
    have h1 := hfail 1 (by omega)
    simp [TuyaCache.get_status, getStatusIter, h0, h1, hs]

/-- A handle that fails its first three fetch attempts drives
`__get_status` to the `ConnectionError` raise after exactly 3
attempts. -/
theorem get_status_three_failures (handle : Nat → Option DeviceStatus)
    (h : ∀ i, i < 3 → handle i = none) :
    TuyaCache.get_status handle = .connFailure 3 := by
  have h0 := h 0 (by omega)
  have h1 := h 1 (by omega)
  have h2 := h 2 (by omega)
  simp [TuyaCache.get_status, getStatusIter, h0, h1, h2]

/-- `status()` reaches the device handle (at least one fetch attempt)
exactly when the cache entry is empty or older than the 15-second
staleness threshold. -/
theorem status_fetch_iff (c : TuyaCache) (handle : Nat → Option DeviceStatus)
    (now tDone : ℚ) :
    0 < (TuyaCache.status c handle now tDone).handleCalls ↔
      (c.cached_status = none ∨ now - c.cached_status_time > 15) := by
  unfold TuyaCache.status
  by_cases hcond : (c.cached_status.isNone = true ∨ now - c.cached_status_time > 15)
  · rw [if_pos hcond]
    have hpos := get_status_calls_pos handle
    constructor
    · intro _
      rcases hcond with h | h
      · exact Or.inl (Option.isNone_iff_eq_none.1 h)
      · exact Or.inr h
    · intro _
      cases hgs : TuyaCache.get_status handle <;>
        (rw [hgs] at hpos; simpa [GetStatusResult.calls] using hpos)
  · rw [if_neg hcond]
    constructor
    · intro h; simp at h
    · intro h
      exfalso
      apply hcond
      rcases h with h | h
      · exact Or.inl (by simp [h])
      · exact Or.inr h

/-- A `status()` call in the refresh branch whose `__get_status`
succeeds stores the fetched blob with the post-fetch timestamp. -/
theorem status_eq_of_refresh (c : TuyaCache)
    (handle : Nat → Option DeviceStatus) (now tDone : ℚ)
    (b : DeviceStatus) (k : Nat)
    (hcond : c.cached_status = none ∨ now - c.cached_status_time > 15)
    (hgs : TuyaCache.get_status handle = .success b k) :
    TuyaCache.status c handle now tDone =
      ⟨⟨some b, tDone⟩, .val (some b), k⟩ := by
  have hcond' : c.cached_status.isNone = true ∨
      now - c.cached_status_time > 15 := by
    rcases hcond with h | h
    · exact Or.inl (by simp [h])
    · exact Or.inr h
  unfold TuyaCache.status
  rw [if_pos hcond', hgs]

/-- A `status()` call in the refresh branch whose `__get_status` raises
propagates the exception and leaves the cache untouched. -/
theorem status_exn_of_refresh (c : TuyaCache)
    (handle : Nat → Option DeviceStatus) (now tDone : ℚ) (k : Nat)
    (hcond : c.cached_status = none ∨ now - c.cached_status_time > 15)
    (hgs : TuyaCache.get_status handle = .connFailure k) :
    TuyaCache.status c handle now tDone = ⟨c, .exn, k⟩ := by
  have hcond' : c.cached_status.isNone = true ∨
      now - c.cached_status_time > 15 := by
    rcases hcond with h | h
    · exact Or.inl (by simp [h])
    · exact Or.inr h
  unfold TuyaCache.status
  rw [if_pos hcond', hgs]

/-! ### Claims -/

/-- C1, counterexample.  The claim says a handle failing exactly k
times (k < 5) then succeeding leads to k+1 handle calls and a cache
update.  At k = 3 the code instead raises the `ConnectionError` from
inside the `if i + 1 == 3:` block after exactly 3 calls and leaves the
cache untouched, even though the handle would have succeeded on the
fourth attempt. -/
theorem C1_counterexample :
    TuyaCache.status TuyaCache.init hFail3 1 2 = ⟨TuyaCache.init, .exn, 3⟩ ∧
    hFail3 3 = some blob0 := by decide

/-- C1, amended: for every k < 3, a handle failing exactly k times and
then succeeding gives exactly k+1 handle calls and a cache update with
the fetched blob; a handle failing its first three attempts makes
`status()` raise the `ConnectionError` after exactly 3 handle calls,
with the cache unchanged. -/
theorem C1_amended :
    (∀ k : Nat, k < 3 →
      ∀ (handle : Nat → Option DeviceStatus) (b : DeviceStatus)
        (c : TuyaCache) (now tDone : ℚ),
        (∀ i, i < k → handle i = none) → handle k = some b →
        (c.cached_status = none ∨ now - c.cached_status_time > 15) →
        TuyaCache.status c handle now tDone =
          ⟨⟨some b, tDone⟩, .val (some b), k + 1⟩) ∧
    (∀ (handle : Nat → Option DeviceStatus) (c : TuyaCache) (now tDone : ℚ),
      (∀ i, i < 3 → handle i = none) →
      (c.cached_status = none ∨ now - c.cached_status_time > 15) →
      TuyaCache.status c handle now tDone = ⟨c, .exn, 3⟩) := by
  constructor
  · intro k hk handle b c now tDone hfail hs hcond
    exact status_eq_of_refresh c handle now tDone b (k + 1) hcond
      (get_status_fail_then_ok handle b k hk hfail hs)
  · intro handle c now tDone hfail hcond
    exact status_exn_of_refresh c handle now tDone 3 hcond
      (get_status_three_failures handle hfail)

/-- Witness for C1_amended: the fail-once handle `hFail1` (k = 1) gives
2 calls and a cache update; the always-failing handle `hFail` raises
after 3 calls. -/
theorem C1_witness :
    TuyaCache.status TuyaCache.init hFail1 1 2 =
      ⟨⟨some blob0, 2⟩, .val (some blob0), 2⟩ ∧
    TuyaCache.status TuyaCache.init hFail 1 2 = ⟨TuyaCache.init, .exn, 3⟩ := by
  constructor
  · exact C1_amended.1 1 (by omega) hFail1 blob0 TuyaCache.init 1 2
      (fun i hi => by interval_cases i; rfl) rfl (Or.inl rfl)
  · exact C1_amended.2 hFail TuyaCache.init 1 2
      (fun i _ => rfl) (Or.inl rfl)

/-- C2, counterexample.  The claim says every device operation of
`status()` and `set_status()` runs inside one common mutual-exclusion
region, so no fetch and write ever overlap.  But `set_status` never
touches `self._lock`: the schedule `sched2` interleaves one `status()`
call (thread `false`) and one `set_status()` call (thread `true`),
projects onto exactly the two methods' event traces, respects the lock
discipline, and still has the device write start while the fetch is in
flight. -/
theorem C2_counterexample :
    proj false sched2 = statusEvents TuyaCache.init hOk 1 ∧
    proj true sched2 = setStatusEvents whOk ∧
    lockValid sched2 none = true ∧
    fetchWriteOverlap sched2 = true := by decide

/-- C2, amended: only `status()` serializes against the lock — all its
device fetches and cache mutations happen while it holds `self._lock`
— while `set_status()` performs its cache mutation and device writes
with the lock never acquired. -/
theorem C2_amended :
    (∀ (c : TuyaCache) (handle : Nat → Option DeviceStatus) (now : ℚ),
      opsLocked (statusEvents c handle now) 0 = true) ∧
    (∀ wh : Nat → Bool, opsLocked (setStatusEvents wh) 0 = false) := by
  constructor
  · intro c handle now
    unfold statusEvents
    show opsLocked (statusBodyEvents c handle now ++ [Ev.release]) 1 = true
    apply opsLocked_of_noLock
    unfold statusBodyEvents
    by_cases hcond : (c.cached_status.isNone = true ∨
        now - c.cached_status_time > 15)
    · rw [if_pos hcond]
      have h1 := noLock_getStatusEvents handle 5 0
      simp only [noLockEvs, List.all_append] at h1 ⊢
      rw [h1]
      cases hgs : TuyaCache.get_status handle <;> rfl
    · rw [if_neg hcond]
      rfl
  · intro wh
    rfl

/-- C3, counterexample.  The claim says any sequence of `status()`
calls spaced less than 15 seconds apart performs a live fetch only on
the first call.  Calls at times 1, 15 and 29 are spaced 14 < 15 apart,
yet the third call fetches again (one handle call), because staleness
is measured from the fetch timestamp, not from the previous call. -/
theorem C3_counterexample :
    ((15 : ℚ) - 1 < 15 ∧ (29 : ℚ) - 15 < 15) ∧
    statusSeq hOk TuyaCache.init [(1, 1), (15, 15), (29, 29)] =
      (⟨some blob0, 29⟩,
       [⟨⟨some blob0, 1⟩, .val (some blob0), 1⟩,
        ⟨⟨some blob0, 1⟩, .val (some blob0), 0⟩,
        ⟨⟨some blob0, 29⟩, .val (some blob0), 1⟩]) := by
  refine ⟨⟨by norm_num, by norm_num⟩, ?_⟩
  have s1 : TuyaCache.status TuyaCache.init hOk 1 1 =
      ⟨⟨some blob0, 1⟩, .val (some blob0), 1⟩ :=
    status_eq_of_refresh TuyaCache.init hOk 1 1 blob0 1 (Or.inl rfl) rfl
  have s2 : TuyaCache.status ⟨some blob0, 1⟩ hOk 15 15 =
      ⟨⟨some blob0, 1⟩, .val (some blob0), 0⟩ :=
    status_memo ⟨some blob0, 1⟩ hOk 15 15 blob0 rfl (by norm_num)
  have s3 : TuyaCache.status ⟨some blob0, 1⟩ hOk 29 29 =
      ⟨⟨some blob0, 29⟩, .val (some blob0), 1⟩ :=
    status_eq_of_refresh ⟨some blob0, 1⟩ hOk 29 29 blob0 1
      (Or.inr (by norm_num)) rfl
  simp [statusSeq, s1, s2, s3]

/-- C3, amended: a `status()` call performs a live refresh exactly when
the cache entry is empty or `now` minus the fetch timestamp exceeds 15
seconds; consequently every sequence of calls whose times stay within
15 seconds of the first fetch's completion timestamp is served entirely
from the memoized blob with no device-handle invocation and no cache
change. -/
theorem C3_amended :
    (∀ (c : TuyaCache) (handle : Nat → Option DeviceStatus) (now tDone : ℚ),
      0 < (TuyaCache.status c handle now tDone).handleCalls ↔
        (c.cached_status = none ∨ now - c.cached_status_time > 15)) ∧
    (∀ (handle : Nat → Option DeviceStatus) (b : DeviceStatus) (t1 : ℚ)
      (ts : List (ℚ × ℚ)), (∀ p ∈ ts, p.1 - t1 ≤ 15) →
      statusSeq handle ⟨some b, t1⟩ ts =
        (⟨some b, t1⟩, ts.map fun _ => ⟨⟨some b, t1⟩, .val (some b), 0⟩)) :=
  ⟨status_fetch_iff, statusSeq_memo⟩

/-- Witness for C3_amended: the refresh-iff at the fresh cache, and a
two-call memoized run at times 2 and 15 after a fetch stamped 1. -/
theorem C3_witness :
    (0 < (TuyaCache.status TuyaCache.init hOk 1 2).handleCalls ↔
      (TuyaCache.init.cached_status = none ∨
        (1 : ℚ) - TuyaCache.init.cached_status_time > 15)) ∧
    statusSeq hOk ⟨some blob0, 1⟩ [(2, 2), (15, 15)] =
      (⟨some blob0, 1⟩,
       [⟨⟨some blob0, 1⟩, .val (some blob0), 0⟩,
        ⟨⟨some blob0, 1⟩, .val (some blob0), 0⟩]) := by
  constructor
  · exact C3_amended.1 TuyaCache.init hOk 1 2
  · have h := C3_amended.2 hOk blob0 1 [(2, 2), (15, 15)]
      (by intro p hp; fin_cases hp <;> norm_num)
    simpa using h

/-- C4 (confirmed): `set_status` empties the cache entry (blob empty,
timestamp 0) no matter how the write attempts go — its event trace
starts with the cache clear, before any device write — and a following
`status()` call on the emptied cache always reaches the device handle,
regardless of the elapsed time. -/
theorem C4_theorem :
    (∀ (c : TuyaCache) (state : Bool) (switchid : String) (wh : Nat → Bool),
      (TuyaCache.set_status c state switchid wh).cache = ⟨none, 0⟩) ∧
    (∀ wh : Nat → Bool, ∃ l, setStatusEvents wh = Ev.cacheWrite :: l) ∧
    (∀ (handle : Nat → Option DeviceStatus) (now tDone : ℚ),
      0 < (TuyaCache.status ⟨none, 0⟩ handle now tDone).handleCalls) := by
  refine ⟨fun c state switchid wh => rfl,
          fun wh => ⟨setStatusWriteEvents wh 0 5, rfl⟩,
          fun handle now tDone => ?_⟩
  exact (status_fetch_iff ⟨none, 0⟩ handle now tDone).2 (Or.inl rfl)

/-- C5, counterexample.  The claim says `set_status` attempts the write
up to 5 times.  With a handle that fails its first three attempts and
would succeed on the fourth, the code gives up after exactly 3
attempts (returning `None`, never writing the device), because the
retry loop returns from inside the `if i + 1 == 3:` block. -/
theorem C5_counterexample :
    TuyaCache.set_status TuyaCache.init true "1" whFail3 =
      ⟨⟨none, 0⟩, .val none, 3, false⟩ ∧
    whFail3 3 = true := by decide

/-- C5, amended: `set_status` attempts the write at most 3 times; if
the first three attempts all fail it returns normally (value `None`,
nothing raised) with the cache entry left empty and no successful
device write; and on every path — success or abandonment — the
returned value is the same `None`, so the return channel cannot
distinguish the two. -/
theorem C5_amended :
    (∀ (c : TuyaCache) (state : Bool) (switchid : String) (wh : Nat → Bool),
      (∀ i, i < 3 → wh i = false) →
      TuyaCache.set_status c state switchid wh =
        ⟨⟨none, 0⟩, .val none, 3, false⟩) ∧
    (∀ (c : TuyaCache) (state : Bool) (switchid : String) (wh : Nat → Bool),
      (TuyaCache.set_status c state switchid wh).result = .val none ∧
      (TuyaCache.set_status c state switchid wh).handleCalls ≤ 3) := by
  constructor
  · intro c state switchid wh h
    have h0 := h 0 (by omega)
    have h1 := h 1 (by omega)
    have h2 := h 2 (by omega)
    simp [TuyaCache.set_status, setStatusIter, h0, h1, h2]
  · intro c state switchid wh
    exact ⟨setStatusIter_val_none wh 5 0 0,
           set_status_calls_le_three c state switchid wh⟩

/-- Witness for C5_amended at the always-failing write handle. -/
theorem C5_witness :
    TuyaCache.set_status TuyaCache.init true "1" whFail =
      ⟨⟨none, 0⟩, .val none, 3, false⟩ :=
  C5_amended.1 TuyaCache.init true "1" whFail (fun i _ => rfl)

/-- C6 (confirmed): with the blob mapping "1" to true, "18" to 120,
"19" to 305 and "20" to 2300, and the adapter configured with switch
index "1" and attribute keys "18"/"19"/"20", a successful refresh
stores switch value true (is_on) and the attributes come out as
current 120 unscaled, consumption 305/10 = 61/2 (30.5) and voltage
2300/10 = 230. -/
theorem C6_theorem :
    (TuyaDevice.update dev6 (.val (some blob6))).is_on = some (.b true) ∧
    (TuyaDevice.update dev6 (.val (some blob6))).available = true ∧
    (TuyaDevice.update dev6 (.val (some blob6))).device_state_attributes =
      .val [("current", .raw (.n 120)), ("consumption", .num (61 / 2)),
        ("voltage", .num 230)] := by
  refine ⟨by decide, by decide, ?_⟩
  have h18 : ("18".isEmpty) = false := rfl
  have h19 : ("19".isEmpty) = false := rfl
  have h20 : ("20".isEmpty) = false := rfl
  simp [TuyaDevice.update, dev6, blob6, TuyaDevice.init,
    TuyaDevice.device_state_attributes, getDp, truthyStr, dpToRat,
    List.lookup, Option.getD, h18, h19, h20]
  norm_num

/-- C7 (confirmed): when `status()` raises into `update`, the adapter
becomes exactly its old state with `available := false` — the stored
status blob and switch value are untouched; when the refresh succeeds
(the blob holds the switch id), `available` is set to true. -/
theorem C7_theorem :
    (∀ d : TuyaDevice,
      TuyaDevice.update d .exn = { d with available := false }) ∧
    (∀ (d : TuyaDevice) (s : DeviceStatus) (v : DPValue),
      s.dps.lookup d.switch_id = some v →
      (TuyaDevice.update d (.val (some s))).available = true) := by
  constructor
  · intro d; rfl
  · intro d s v h
    simp [TuyaDevice.update, h]

/-- Witness for C7_theorem at the example adapter and blob. -/
theorem C7_witness :
    TuyaDevice.update dev6 .exn = { dev6 with available := false } ∧
    (TuyaDevice.update dev6 (.val (some blob6))).available = true :=
  ⟨C7_theorem.1 dev6, C7_theorem.2 dev6 blob6 (.b true) (by decide)⟩

/-- C8 (confirmed): if the adapter holds a blob and one of its
configured (truthy) attribute keys is absent from the blob's dps
mapping, reading `device_state_attributes` raises (the subscript
`KeyError` propagates) rather than omitting or defaulting the
attribute. -/
theorem C8_theorem :
    ∀ (d : TuyaDevice) (s : DeviceStatus) (k : String),
      d.status = some s → k.isEmpty = false →
      s.dps.lookup k = none →
      (d.attr_current = some k ∨ d.attr_consumption = some k ∨
        d.attr_voltage = some k) →
      TuyaDevice.device_state_attributes d = .exn := by
  intro d s k hs hk hlook hsel
  unfold TuyaDevice.device_state_attributes
  rcases hsel with hc | hc | hc
  · simp [hc, truthyStr, hk, getDp, hs, hlook]
  · simp [hc, truthyStr, hk, getDp, hs, hlook]
    split <;> rfl
  · simp [hc, truthyStr, hk, getDp, hs, hlook]
    split
    · rfl
    · split <;> rfl

/-- Witness for C8_theorem: the adapter `dev8` whose blob lacks its
configured voltage key "20". -/
theorem C8_witness : TuyaDevice.device_state_attributes dev8 = .exn :=
  C8_theorem dev8 ⟨[("1", .b true), ("18", .n 5)]⟩ "20" rfl rfl (by decide)
    (Or.inr (Or.inr rfl))

/-- C9 (confirmed): the CacheEntry invariant — timestamp unset (0)
exactly when the cached blob is empty — holds of the freshly built
cache and is preserved by every `status()` call (for positive wall
clock readings) and every `set_status()` call. -/
theorem C9_theorem :
    cacheInv TuyaCache.init ∧
    (∀ (c : TuyaCache) (handle : Nat → Option DeviceStatus) (now tDone : ℚ),
      0 < tDone → cacheInv c →
      cacheInv (TuyaCache.status c handle now tDone).cache) ∧
    (∀ (c : TuyaCache) (state : Bool) (switchid : String) (wh : Nat → Bool),
      cacheInv (TuyaCache.set_status c state switchid wh).cache) := by
  refine ⟨by simp [cacheInv, TuyaCache.init], ?_, ?_⟩
  · intro c handle now tDone htD hinv
    unfold TuyaCache.status
    by_cases hcond : (c.cached_status.isNone = true ∨
        now - c.cached_status_time > 15)
    · rw [if_pos hcond]
      cases hgs : TuyaCache.get_status handle with
      | success s kk =>
        simp [cacheInv]
        exact ne_of_gt htD
      | connFailure kk => exact hinv
      | implicitNone kk =>
        exact absurd hgs (get_status_ne_implicitNone handle kk)
    · rw [if_neg hcond]
      exact hinv
  · intro c state switchid wh
    simp [TuyaCache.set_status, cacheInv]

/-- Witness for C9_theorem: the invariant after construction, after a
successful refresh at time 2, and after a write. -/
theorem C9_witness :
    cacheInv TuyaCache.init ∧
    cacheInv (TuyaCache.status TuyaCache.init hOk 1 2).cache ∧
    cacheInv (TuyaCache.set_status TuyaCache.init true "1" whOk).cache :=
  ⟨C9_theorem.1,
   C9_theorem.2.1 TuyaCache.init hOk 1 2 (by norm_num) C9_theorem.1,
   C9_theorem.2.2 TuyaCache.init true "1" whOk⟩

/-- C10 (confirmed): whenever `status()` propagates the
`ConnectionError` (retry budget exhausted), the cache entry afterwards
is exactly what it was before the call — a previously fetched stale
blob is retained, not cleared. -/
theorem C10_theorem :
    ∀ (c : TuyaCache) (handle : Nat → Option DeviceStatus) (now tDone : ℚ),
      (TuyaCache.status c handle now tDone).result = .exn →
      (TuyaCache.status c handle now tDone).cache = c := by
  intro c handle now tDone h
  unfold TuyaCache.status at h ⊢
  by_cases hcond : (c.cached_status.isNone = true ∨
      now - c.cached_status_time > 15)
  · rw [if_pos hcond] at h ⊢
    cases hgs : TuyaCache.get_status handle with
    | success s kk => rw [hgs] at h; simp at h
    | connFailure kk => rfl
    | implicitNone kk => rw [hgs] at h; simp at h
  · rw [if_neg hcond] at h ⊢

/-- Witness for C10_theorem: a stale entry (fetched at 1, read at 20)
plus an always-failing handle — `status()` raises and the stale blob
is still there afterwards. -/
theorem C10_witness :
    (TuyaCache.status ⟨some blob0, 1⟩ hFail 20 21).result = .exn ∧
    (TuyaCache.status ⟨some blob0, 1⟩ hFail 20 21).cache = ⟨some blob0, 1⟩ := by
  have hs : TuyaCache.status ⟨some blob0, 1⟩ hFail 20 21 =
      ⟨⟨some blob0, 1⟩, .exn, 3⟩ :=
    status_exn_of_refresh ⟨some blob0, 1⟩ hFail 20 21 3
      (Or.inr (by norm_num)) rfl
  exact ⟨by rw [hs], C10_theorem ⟨some blob0, 1⟩ hFail 20 21 (by rw [hs])⟩
